import Mathlib

/-!
Shallow embedding of the messaging client's local-first state engine
(`chat.messages.js`, `chat.conversations.js`) and proofs about the
claims of the specification.

The embedding follows the source:
* `ChatState` mirrors the `ChatState` object of the API variant
  (currentUser, currentConversation, conversations, groups, messages).
* Message maps (`this.messages`, a JS object keyed by chat id) are
  association lists `List (String × List Message)`; JS object-key
  update keeps an existing key in place and appends a fresh key at the
  end, which `setMessages` reproduces.
* Async functions are split at their `await` points: `sendRun` records
  the store as it stands when control is suspended at `await fetch`
  (`stateAtSuspension`) and the store after the response continuation
  ran (`finalState`).  Between entry of `send()` and the `fetch` call
  the source only reads the input field, validates, computes `chatId`
  and disables the send button — no store field is written.
* Network results are passed as explicit values: `none` models a
  transport failure (fetch rejected), `FetchResponse.ok = false` a
  non-success HTTP status.
-/

namespace Messaging

/-- Message id: either the server-assigned numeric id (`message_id`
from the API) or a locally generated string id (`Utils.generateId()`). -/
inductive MsgId where
  | server (n : Nat)
  | localId (s : String)
deriving Repr, DecidableEq

/-- Local message record as built by the source: `{ id, text, timestamp,
isSent, sender_id }`.  There is no `deliveryState` field anywhere in the
source; `isSent` only records the direction.  `_fromApi` also stores a
`content` field that always duplicates `text`, which we do not repeat. -/
structure Message where
  id : MsgId
  text : String
  timestamp : Nat
  isSent : Bool
  senderId : Option Nat
deriving Repr, DecidableEq

/-- Sidebar thread record.  The DM mapping (`_fetchMessages`) sets
`isOnline` and leaves `memberCount` undefined; the group mapping
(`_fetchChats`) sets `memberCount` and leaves `isOnline` undefined.
JS objects are duck-typed, so both shapes live in one structure with
`Option` fields. -/
structure Thread where
  id : String
  name : String
  lastMessage : String
  timestamp : Nat
  unreadCount : Nat
  isOnline : Option Bool
  memberCount : Option Nat
deriving Repr, DecidableEq

/-- The two collections: `activeTab` / `currentConversationType` is
either the DM tab or the Groups tab. -/
inductive ConvType where
  | dm
  | groups
deriving Repr, DecidableEq

/-- `ChatState.messages`: a JS object mapping chat id to message list. -/
abbrev MsgMap := List (String × List Message)

/-- The `ChatState` singleton of the API variant.  `currentUser` keeps
just the numeric id, which is all `_currentUserId()` exposes
(`ChatState.currentUser?.id ?? null`).  `currentConversation` holds the
selected thread (the source stores the object itself). -/
structure ChatState where
  currentUser : Option Nat
  currentConversation : Option Thread
  currentConversationType : ConvType
  conversations : List Thread
  groups : List Thread
  messages : MsgMap
deriving Repr, DecidableEq

/-- Drop leading whitespace characters. -/
def trimLeftChars : List Char → List Char
  | [] => []
  | c :: t => if c.isWhitespace then trimLeftChars t else c :: t

/-- JS `String.prototype.trim()`: strip whitespace from both ends.
(Defined over the character list so it is kernel-computable.) -/
def jsTrim (s : String) : String :=
  String.mk (trimLeftChars (trimLeftChars s.data.reverse).reverse)

/-- `ChatState.getMessages(id)`: `return this.messages[id] || []`. -/
def getMessages (ms : MsgMap) (cid : String) : List Message :=
  (List.lookup cid ms).getD []

/-- JS object-key assignment `this.messages[cid] = l`: replace the value
of an existing key in place, otherwise add the key at the end. -/
def setMessages : MsgMap → String → List Message → MsgMap
  | [], cid, l => [(cid, l)]
  | (k, v) :: t, cid, l =>
      if k = cid then (cid, l) :: t else (k, v) :: setMessages t cid l

/-- `ChatState.addMessage(cid, m)`: create the list if absent, then push. -/
def addMessage (ms : MsgMap) (cid : String) (m : Message) : MsgMap :=
  setMessages ms cid (getMessages ms cid ++ [m])

/-- `ChatState.addConversation(c)`: `unshift` onto `conversations` and
unconditionally reset `messages[c.id]` to `[]`. -/
def addConversation (st : ChatState) (c : Thread) : ChatState :=
  { st with conversations := c :: st.conversations,
            messages := setMessages st.messages c.id [] }

/-- `ChatState.addGroup(g)`: `unshift` onto `groups` and unconditionally
reset `messages[g.id]` to `[]`. -/
def addGroup (st : ChatState) (g : Thread) : ChatState :=
  { st with groups := g :: st.groups,
            messages := setMessages st.messages g.id [] }

/-- Raw message record of the history endpoint
(`GET /api/messages?chat_id=…`): `{ id, content, sent_at, sender_id }`. -/
structure ApiMessage where
  id : Nat
  content : String
  sent_at : Nat
  sender_id : Nat
deriving Repr, DecidableEq

/-- `ChatMessages._fromApi(msg)`: map a raw API record to the local
format; `sent_at` seconds are scaled to milliseconds, `isSent` compares
`sender_id` against the current user id. -/
def fromApi (myId : Option Nat) (msg : ApiMessage) : Message :=
  { id := MsgId.server msg.id,
    text := msg.content,
    timestamp := msg.sent_at * 1000,
    isSent := match myId with
      | none => false
      | some i => msg.sender_id == i,
    senderId := some msg.sender_id }

/-- A parsed HTTP response: `ok` is `response.ok`, `data` the decoded
payload (the source unwraps `data.data?.x ?? data.x ?? []`, so the
payload is modelled already unwrapped). -/
structure FetchResponse (α : Type) where
  ok : Bool
  data : α
deriving Repr, DecidableEq

/-- `ChatMessages._refreshMessages(chatId)` (and `loadMessages`, which
has the same store effect): on transport failure (`none`) or a
non-success status the store is untouched; on success the thread's
list is wholesale replaced by the mapped server records. -/
def refreshMessages (st : ChatState) (chatId : String)
    (resp : Option (FetchResponse (List ApiMessage))) : ChatState :=
  match resp with
  | none => st
  | some r =>
      if r.ok then
        { st with messages :=
            setMessages st.messages chatId (r.data.map (fromApi st.currentUser)) }
      else st

/-- Raw conversation record of `GET /api/messages` (collection snapshot). -/
structure ApiConversation where
  id : Nat
  name : Option String
  username : Option String
  last_message : Option String
  timestamp : Option Nat
  unread_count : Option Nat
  is_online : Option Bool
deriving Repr, DecidableEq

/-- The DM mapping inside `ChatConversations._fetchMessages`. -/
def convFromApi (nowMs : Nat) (c : ApiConversation) : Thread :=
  { id := toString c.id,
    name := ((c.name).orElse fun _ => c.username).getD "Unknown",
    lastMessage := (c.last_message).getD "",
    timestamp := (c.timestamp).getD nowMs,
    unreadCount := (c.unread_count).getD 0,
    isOnline := some ((c.is_online).getD false),
    memberCount := none }

/-- Raw group record of `GET /api/chats`. -/
structure ApiChat where
  id : Nat
  name : Option String
  last_message : Option String
  timestamp : Option Nat
  unread_count : Option Nat
  member_count : Option Nat
deriving Repr, DecidableEq

/-- The group mapping inside `ChatConversations._fetchChats`
(`member_count ?? null` keeps absence as absence). -/
def chatFromApi (nowMs : Nat) (g : ApiChat) : Thread :=
  { id := toString g.id,
    name := (g.name).getD "Unnamed group",
    lastMessage := (g.last_message).getD "",
    timestamp := (g.timestamp).getD nowMs,
    unreadCount := (g.unread_count).getD 0,
    isOnline := none,
    memberCount := g.member_count }

/-- `ChatConversations._fetchMessages()`: `!res.ok` throws before any
store write (the caller `refresh()` catches and only re-renders), so a
failed response leaves the store untouched; a success replaces
`conversations` wholesale. -/
def fetchMessagesResult (st : ChatState)
    (resp : Option (FetchResponse (List ApiConversation))) (nowMs : Nat) : ChatState :=
  match resp with
  | none => st
  | some r =>
      if r.ok then { st with conversations := r.data.map (convFromApi nowMs) }
      else st

/-- `ChatConversations._fetchChats()`: same shape for the groups list. -/
def fetchChatsResult (st : ChatState)
    (resp : Option (FetchResponse (List ApiChat))) (nowMs : Nat) : ChatState :=
  match resp with
  | none => st
  | some r =>
      if r.ok then { st with groups := r.data.map (chatFromApi nowMs) }
      else st

/-- `ChatConversations.refresh()` body: dispatch on the active tab. -/
def refreshActive (tab : ConvType) (st : ChatState)
    (dmResp : Option (FetchResponse (List ApiConversation)))
    (grpResp : Option (FetchResponse (List ApiChat))) (nowMs : Nat) : ChatState :=
  match tab with
  | ConvType.dm => fetchMessagesResult st dmResp nowMs
  | ConvType.groups => fetchChatsResult st grpResp nowMs

/-- The `setupTabs` click handler: set `activeTab` to the clicked tab,
then `refresh()` (which dispatches on the new tab). -/
def switchTab (newTab : ConvType) (st : ChatState)
    (dmResp : Option (FetchResponse (List ApiConversation)))
    (grpResp : Option (FetchResponse (List ApiChat))) (nowMs : Nat) :
    ConvType × ChatState :=
  (newTab, refreshActive newTab st dmResp grpResp nowMs)

/-- The collection the given tab reads (`type === 'groups' ? groups :
conversations`). -/
def activeItems (st : ChatState) (ty : ConvType) : List Thread :=
  match ty with
  | ConvType.dm => st.conversations
  | ConvType.groups => st.groups

/-- Write back the collection the given tab reads. -/
def setItems (st : ChatState) (ty : ConvType) (l : List Thread) : ChatState :=
  match ty with
  | ConvType.dm => { st with conversations := l }
  | ConvType.groups => { st with groups := l }

/-- In-place mutation `conv.unreadCount = 0` of the object returned by
`items.find(...)`: only the first list entry with the id is changed. -/
def zeroUnreadFirst : List Thread → String → List Thread
  | [], _ => []
  | c :: t, id =>
      if c.id = id then { c with unreadCount := 0 } :: t
      else c :: zeroUnreadFirst t id

/-- `ChatConversations._markAsRead(id, type)`: find the thread; if its
`unreadCount > 0`, zero it and persist (`ChatState.save()`), otherwise
do nothing.  The returned flag records whether the zero-and-save fired. -/
def markAsRead (l : List Thread) (id : String) : List Thread × Bool :=
  match l.find? fun c => c.id == id with
  | none => (l, false)
  | some c =>
      if 0 < c.unreadCount then (zeroUnreadFirst l id, true) else (l, false)

/-- `ChatConversations.open(id, type)`: look the thread up in the active
collection (early return when absent), select it, persist, then
`_markAsRead`.  The `Bool` result is `_markAsRead`'s zero-and-save flag. -/
def openConversation (st : ChatState) (id : String) (ty : ConvType) :
    ChatState × Bool :=
  match (activeItems st ty).find? fun c => c.id == id with
  | none => (st, false)
  | some conv =>
      let st1 := { st with currentConversation := some conv,
                           currentConversationType := ty }
      let res := markAsRead (activeItems st1 ty) id
      (setItems st1 ty res.1, res.2)

/-- Outcome of the `POST /api/messages/send` round trip as the `send`
continuation sees it: transport failure, non-success status, or the
success envelope `{ message_id, sent_at }`. -/
inductive SendResponse where
  | netError
  | httpError
  | success (message_id : Nat) (sent_at : Nat)
deriving Repr, DecidableEq

/-- The message object the API-variant `send` builds after a successful
response: `id: messageData.message_id || Utils.generateId()`,
`timestamp: (messageData.sent_at || Math.floor(Date.now() / 1000)) * 1000`.
JS `||` treats `0` (and a missing field) as falsy, which the `≠ 0`
tests reproduce; `0` stands for absent-or-zero. -/
def confirmedMessage (text : String) (mid sat nowMs : Nat) (genId : String)
    (me : Option Nat) : Message :=
  { id := if mid ≠ 0 then MsgId.server mid else MsgId.localId genId,
    text := text,
    timestamp := (if sat ≠ 0 then sat else nowMs / 1000) * 1000,
    isSent := true,
    senderId := me }

/-- The message object the localStorage-variant `send` builds:
`{ id: Utils.generateId(), text, timestamp: Date.now(), isSent: true }`. -/
def localMessage (text : String) (nowMs : Nat) (genId : String) : Message :=
  { id := MsgId.localId genId, text := text, timestamp := nowMs,
    isSent := true, senderId := none }

/-- In-place mutation of the first thread found with the id
(`conv.lastMessage = text; conv.timestamp = Date.now()`). -/
def updateFirst : List Thread → String → String → Nat → List Thread
  | [], _, _, _ => []
  | c :: t, cid, text, nowMs =>
      if c.id = cid then { c with lastMessage := text, timestamp := nowMs } :: t
      else c :: updateFirst t cid text nowMs

/-- `const conv = ChatState.findConversation(chatId) ?? ChatState.findGroup(chatId);
if (conv) { conv.lastMessage = text; conv.timestamp = Date.now(); }` —
the DM list is probed first; only the list the object came from changes. -/
def previewUpdate (st : ChatState) (cid text : String) (nowMs : Nat) : ChatState :=
  if (st.conversations.find? fun c => c.id == cid).isSome then
    { st with conversations := updateFirst st.conversations cid text nowMs }
  else if (st.groups.find? fun c => c.id == cid).isSome then
    { st with groups := updateFirst st.groups cid text nowMs }
  else st

/-- The continuation of the API-variant `send` from the point its
`await fetch` resolves: failures show the inline error banner and leave
the store untouched; a success builds `confirmedMessage`, appends it
via `ChatState.addMessage`, and updates the sidebar preview.  (The
`setTimeout(() => this._refreshMessages(chatId), 500)` it schedules is a
separate later event, modelled by `refreshMessages`.)  The `Bool`
result records whether `_showSendError` ran. -/
def sendResolve (st : ChatState) (chatId text : String) (resp : SendResponse)
    (nowMs : Nat) (genId : String) : ChatState × Bool :=
  match resp with
  | SendResponse.netError => (st, true)
  | SendResponse.httpError => (st, true)
  | SendResponse.success mid sat =>
      let msg := confirmedMessage text mid sat nowMs genId st.currentUser
      let st1 := { st with messages := addMessage st.messages chatId msg }
      (previewUpdate st1 chatId text nowMs, false)

/-- One full run of the API-variant `async send()` observed at its two
interesting instants. -/
structure SendRun where
  stateAtSuspension : ChatState
  networkCalled : Bool
  finalState : ChatState
  errorShown : Bool
deriving Repr, DecidableEq

/-- API-variant `ChatMessages.send()` (the variant that talks to
`POST /api/messages/send`).  Guards in source order: empty trimmed text
returns silently; no selected conversation shows an error; trimmed
length above 10 000 shows an error.  Before `await fetch` the source
writes no store field (it only reads the input, computes `chatId`, and
disables the send button), so `stateAtSuspension` is the entry state;
the store is first written inside the response continuation
(`sendResolve`). -/
def sendRun (st : ChatState) (raw : String) (resp : SendResponse)
    (nowMs : Nat) (genId : String) : SendRun :=
  let text := jsTrim raw
  if text = "" then
    { stateAtSuspension := st, networkCalled := false,
      finalState := st, errorShown := false }
  else
    match st.currentConversation with
    | none =>
        { stateAtSuspension := st, networkCalled := false,
          finalState := st, errorShown := true }
    | some conv =>
        if 10000 < text.length then
          { stateAtSuspension := st, networkCalled := false,
            finalState := st, errorShown := true }
        else
          let res := sendResolve st conv.id text resp nowMs genId
          { stateAtSuspension := st, networkCalled := true,
            finalState := res.1, errorShown := res.2 }

/-- localStorage-variant `ChatMessages.send()` (no fetch call exists in
its body): guards are empty text, no selected conversation, and trimmed
length above 4 000; otherwise it synchronously appends
`{ id: Utils.generateId(), text, timestamp: Date.now(), isSent: true }`
and updates the preview.  The `Bool` records whether `_showSendError`
ran. -/
def sendLocal (st : ChatState) (raw : String) (nowMs : Nat) (genId : String) :
    ChatState × Bool :=
  let text := jsTrim raw
  if text = "" then (st, false)
  else
    match st.currentConversation with
    | none => (st, true)
    | some conv =>
        if 4000 < text.length then (st, true)
        else
          let st1 := { st with
            messages := addMessage st.messages conv.id (localMessage text nowMs genId) }
          (previewUpdate st1 conv.id text nowMs, false)

/-- Stated from the specification's glossary for claim C2 only: a
"pending message" is one appended locally and not yet acknowledged by
the server, i.e. one still carrying a locally generated id.  The source
message format has no `deliveryState` field, so this is the closest
code-level reading of "deliveryState = pending". -/
def specPending (m : Message) : Bool :=
  match m.id with
  | MsgId.localId _ => true
  | MsgId.server _ => false

/-- Concrete thread used by the counterexamples and witnesses. -/
def exThread : Thread :=
  { id := "1", name := "Bob", lastMessage := "", timestamp := 0,
    unreadCount := 0, isOnline := some false, memberCount := none }

/-- Concrete store: user 7 logged in, thread "1" selected, no messages. -/
def exState : ChatState :=
  { currentUser := some 7,
    currentConversation := some exThread,
    currentConversationType := ConvType.dm,
    conversations := [exThread],
    groups := [],
    messages := [] }

/-- A locally appended, unacknowledged message (local id). -/
def exPendingMsg : Message :=
  { id := MsgId.localId "p1", text := "Hi", timestamp := 5,
    isSent := true, senderId := none }

/-- `exState` with the pending message stored under thread "1". -/
def exStateP : ChatState :=
  { exState with messages := [("1", [exPendingMsg])] }

/-- Concrete thread with unread messages, for the open() witness. -/
def exThreadU : Thread :=
  { id := "2", name := "Ann", lastMessage := "", timestamp := 0,
    unreadCount := 3, isOnline := some true, memberCount := none }

/-- Store whose DM collection holds the unread thread. -/
def exStateU : ChatState :=
  { exState with conversations := [exThreadU] }

/-- Two sends "A" then "B" are issued on thread "1" before either
confirms (`send` writes nothing to the store before its `await fetch`,
so issuing both leaves the store at `exState`); the server response for
"B" arrives first and its continuation runs. -/
def c3State1 : ChatState :=
  (sendResolve exState "1" "B" (SendResponse.success 102 10) 1000 "gB").1

/-- ... then the response for "A" arrives and its continuation runs. -/
def c3State2 : ChatState :=
  (sendResolve c3State1 "1" "A" (SendResponse.success 101 11) 1001 "gA").1

/-- Looking up the key just written returns the value just written. -/
theorem getMessages_setMessages (ms : MsgMap) (cid : String) (l : List Message) :
    getMessages (setMessages ms cid l) cid = l := by
  induction ms with
  | nil => simp [setMessages, getMessages, List.lookup]
  | cons p t ih =>
    obtain ⟨k, v⟩ := p
    by_cases h : k = cid
    · subst h
      simp [setMessages, getMessages, List.lookup]
    · have h2 : (cid == k) = false := by
        simp only [beq_eq_false_iff_ne, ne_eq]
        exact fun e => h e.symm
      simpa [setMessages, h, getMessages, List.lookup, h2] using ih

/-- `addMessage` appends to the thread's list (creating it if absent). -/
theorem getMessages_addMessage (ms : MsgMap) (cid : String) (m : Message) :
    getMessages (addMessage ms cid m) cid = getMessages ms cid ++ [m] := by
  simp [addMessage, getMessages_setMessages]

/-- The sidebar-preview update never touches the message map. -/
theorem previewUpdate_messages (st : ChatState) (cid text : String) (nowMs : Nat) :
    (previewUpdate st cid text nowMs).messages = st.messages := by
  unfold previewUpdate
  split
  · rfl
  · split
    · rfl
    · rfl

/-- The sidebar-preview update never touches the session identity. -/
theorem previewUpdate_currentUser (st : ChatState) (cid text : String) (nowMs : Nat) :
    (previewUpdate st cid text nowMs).currentUser = st.currentUser := by
  unfold previewUpdate
  split
  · rfl
  · split
    · rfl
    · rfl

/-- A successful send continuation appends exactly the confirmed message
to the thread's list. -/
theorem sendResolve_success_messages (st : ChatState) (cid text : String)
    (mid sat nowMs : Nat) (genId : String) :
    getMessages (sendResolve st cid text (SendResponse.success mid sat) nowMs genId).1.messages cid
      = getMessages st.messages cid
        ++ [confirmedMessage text mid sat nowMs genId st.currentUser] := by
  show getMessages (previewUpdate { st with messages := addMessage st.messages cid (confirmedMessage text mid sat nowMs genId st.currentUser) } cid text nowMs).messages cid = _
  rw [previewUpdate_messages]
  exact getMessages_addMessage st.messages cid _

/-- The send continuation never changes the session identity. -/
theorem sendResolve_currentUser (st : ChatState) (cid text : String)
    (resp : SendResponse) (nowMs : Nat) (genId : String) :
    (sendResolve st cid text resp nowMs genId).1.currentUser = st.currentUser := by
  cases resp with
  | netError => rfl
  | httpError => rfl
  | success mid sat =>
      show (previewUpdate _ cid text nowMs).currentUser = st.currentUser
      rw [previewUpdate_currentUser]

/-- Zeroing the first thread with the id commutes with `find?` on that id. -/
theorem find?_zeroUnreadFirst (l : List Thread) (id : String) :
    (zeroUnreadFirst l id).find? (fun c => c.id == id)
      = (l.find? fun c => c.id == id).map fun c => { c with unreadCount := 0 } := by
  induction l with
  | nil => simp [zeroUnreadFirst]
  | cons c t ih =>
    by_cases h : c.id = id
    · simp [zeroUnreadFirst, h, List.find?]
    · have h2 : (c.id == id) = false := by simpa using h
      simp [zeroUnreadFirst, h, List.find?, h2, ih]

/-- The collections a given tab reads are untouched when only the
selection fields change. -/
theorem activeItems_select (st : ChatState) (conv : Thread) (ty ty2 : ConvType) :
    activeItems { st with currentConversation := some conv,
                          currentConversationType := ty2 } ty
      = activeItems st ty := by
  cases ty <;> rfl

/-- Reading back the collection just written. -/
theorem activeItems_setItems (st : ChatState) (ty : ConvType) (l : List Thread) :
    activeItems (setItems st ty l) ty = l := by
  cases ty <;> rfl

/-- C1.  The claim asserts an optimistic append: for every text that is
non-empty after trimming and within the length bound, with a selected
conversation, the thread's list contains a message with that text
synchronously, before the send request resolves (and with
`deliveryState = pending`, a field the source does not have).  At the
concrete valid input "Hello" on selected thread "1" the store at the
`await fetch` suspension point is unchanged and contains no such
message, so the claim as stated is false. -/
theorem claim_C1_counterexample :
    (jsTrim "Hello" ≠ "" ∧ ¬ 10000 < (jsTrim "Hello").length ∧
     exState.currentConversation = some exThread ∧
     (sendRun exState "Hello" (SendResponse.success 42 100) 5000 "g1").networkCalled = true) ∧
    ¬ ∃ m ∈ getMessages (sendRun exState "Hello" (SendResponse.success 42 100) 5000 "g1").stateAtSuspension.messages exThread.id,
        m.text = "Hello" := by
  decide

/-- C1 (amended).  For every valid input with a selected conversation,
the API-variant `send` leaves the store untouched until the network
call resolves (`stateAtSuspension` is the entry state) and appends the
message — `isSent = true`, server-assigned id and timestamp, no
`deliveryState` field — only in the continuation of a successful
response; the localStorage variant appends its message synchronously
but performs no network call at all. -/
theorem claim_C1_amended (st : ChatState) (raw : String) (resp : SendResponse)
    (nowMs : Nat) (genId : String) (conv : Thread) (mid sat : Nat)
    (hconv : st.currentConversation = some conv)
    (hne : jsTrim raw ≠ "")
    (hlenA : ¬ 10000 < (jsTrim raw).length)
    (hlenB : ¬ 4000 < (jsTrim raw).length) :
    (sendRun st raw resp nowMs genId).stateAtSuspension = st ∧
    (sendRun st raw resp nowMs genId).networkCalled = true ∧
    getMessages (sendRun st raw (SendResponse.success mid sat) nowMs genId).finalState.messages conv.id
      = getMessages st.messages conv.id
        ++ [confirmedMessage (jsTrim raw) mid sat nowMs genId st.currentUser] ∧
    getMessages (sendLocal st raw nowMs genId).1.messages conv.id
      = getMessages st.messages conv.id
        ++ [localMessage (jsTrim raw) nowMs genId] := by
  have hrun : ∀ r, sendRun st raw r nowMs genId
      = { stateAtSuspension := st, networkCalled := true,
          finalState := (sendResolve st conv.id (jsTrim raw) r nowMs genId).1,
          errorShown := (sendResolve st conv.id (jsTrim raw) r nowMs genId).2 } := by
    intro r
    simp [sendRun, hne, hconv, hlenA]
  refine ⟨?_, ?_, ?_, ?_⟩
  · rw [hrun]
  · rw [hrun]
  · rw [hrun]
    exact sendResolve_success_messages st conv.id (jsTrim raw) mid sat nowMs genId
  · have hloc : sendLocal st raw nowMs genId
        = (previewUpdate
            { st with messages :=
                addMessage st.messages conv.id (localMessage (jsTrim raw) nowMs genId) }
            conv.id (jsTrim raw) nowMs,
           false) := by
      simp [sendLocal, hne, hconv, hlenB]
    rw [hloc]
    show getMessages (previewUpdate _ conv.id (jsTrim raw) nowMs).messages conv.id = _
    rw [previewUpdate_messages]
    exact getMessages_addMessage st.messages conv.id _

/-- C1 witness: the amended theorem applied at the concrete valid input
"Hello" on selected thread "1". -/
theorem claim_C1_witness :
    ((sendRun exState "Hello" (SendResponse.success 42 100) 5000 "g1").stateAtSuspension = exState ∧
     (sendRun exState "Hello" (SendResponse.success 42 100) 5000 "g1").networkCalled = true ∧
     getMessages (sendRun exState "Hello" (SendResponse.success 42 100) 5000 "g1").finalState.messages exThread.id
       = getMessages exState.messages exThread.id
         ++ [confirmedMessage (jsTrim "Hello") 42 100 5000 "g1" exState.currentUser] ∧
     getMessages (sendLocal exState "Hello" 5000 "g1").1.messages exThread.id
       = getMessages exState.messages exThread.id
         ++ [localMessage (jsTrim "Hello") 5000 "g1"]) :=
  claim_C1_amended exState "Hello" (SendResponse.success 42 100) 5000 "g1" exThread 42 100
    (by decide) (by decide) (by decide) (by decide)

/-- C2.  The claim asserts `refreshMessages` never drops a message that
is pending (in the spec's glossary: appended locally, not yet
acknowledged, here `specPending`) at call time.  At the concrete store
holding one locally appended unacknowledged message under thread "1",
a successful refresh whose fetched history is empty removes it, so the
claim as stated is false. -/
theorem claim_C2_counterexample :
    specPending exPendingMsg = true ∧
    exPendingMsg ∈ getMessages exStateP.messages "1" ∧
    exPendingMsg ∉ getMessages (refreshMessages exStateP "1" (some ⟨true, []⟩)).messages "1" := by
  decide

/-- C2 (amended).  A successful `_refreshMessages(t)` replaces thread
t's message list wholesale with the mapped server records: nothing from
the prior local list — pending or otherwise — is preserved or
re-appended. -/
theorem claim_C2_amended (st : ChatState) (chatId : String)
    (r : FetchResponse (List ApiMessage)) (h : r.ok = true) :
    getMessages (refreshMessages st chatId (some r)).messages chatId
      = r.data.map (fromApi st.currentUser) := by
  simp [refreshMessages, h, getMessages_setMessages]

/-- C2 witness: the amended theorem at a concrete successful response. -/
theorem claim_C2_witness :
    getMessages (refreshMessages exStateP "1" (some ⟨true, [⟨9, "yo", 3, 7⟩]⟩)).messages "1"
      = List.map (fromApi exStateP.currentUser) [⟨9, "yo", 3, 7⟩] :=
  claim_C2_amended exStateP "1" ⟨true, [⟨9, "yo", 3, 7⟩]⟩ rfl

/-- C3.  The claim asserts that when sends "A" then "B" are issued
before either confirms and the responses arrive B-then-A, the final
list order is [A, B].  In the source the append happens inside each
response continuation, so running the two continuations in arrival
order (B first, from the common pre-send store) yields ["B", "A"]:
the claimed order is false, although each message does carry its own
server-assigned id. -/
theorem claim_C3_counterexample :
    ((getMessages c3State2.messages "1").map Message.text = ["B", "A"]) ∧
    ¬ ((getMessages c3State2.messages "1").map Message.text = ["A", "B"]) ∧
    ((getMessages c3State2.messages "1").map Message.id
       = [MsgId.server 102, MsgId.server 101]) := by
  decide

/-- C3 (amended).  When both responses succeed, the final message list
is the original list extended in response-arrival order — the
continuation that runs first appends first — and each appended message
carries its own server-assigned id and timestamp; the issue order of
the send calls does not determine list order. -/
theorem claim_C3_amended (st : ChatState) (cid tA tB : String)
    (midA midB satA satB n1 n2 : Nat) (g1 g2 : String) :
    getMessages (sendResolve (sendResolve st cid tB (SendResponse.success midB satB) n1 g1).1
        cid tA (SendResponse.success midA satA) n2 g2).1.messages cid
      = getMessages st.messages cid
        ++ [confirmedMessage tB midB satB n1 g1 st.currentUser,
            confirmedMessage tA midA satA n2 g2 st.currentUser] := by
  rw [sendResolve_success_messages, sendResolve_currentUser,
      sendResolve_success_messages, List.append_assoc]
  rfl

/-- C4.  Texts that trim to empty, or exceed the variant's maximum
length (10 000 for the API variant, 4 000 for the localStorage
variant), cause `send` to append nothing, issue no network call, and
leave the whole store unchanged; the oversized (non-empty) case shows
the inline error banner. -/
theorem claim_C4 (st : ChatState) (raw : String) (resp : SendResponse)
    (nowMs : Nat) (genId : String)
    (hA : jsTrim raw = "" ∨ 10000 < (jsTrim raw).length)
    (hB : jsTrim raw = "" ∨ 4000 < (jsTrim raw).length) :
    (sendRun st raw resp nowMs genId).finalState = st ∧
    (sendRun st raw resp nowMs genId).stateAtSuspension = st ∧
    (sendRun st raw resp nowMs genId).networkCalled = false ∧
    (sendLocal st raw nowMs genId).1 = st ∧
    (jsTrim raw ≠ "" → (sendRun st raw resp nowMs genId).errorShown = true) ∧
    (jsTrim raw ≠ "" → (sendLocal st raw nowMs genId).2 = true) := by
  rcases hA with hA | hA
  · simp [sendRun, sendLocal, hA]
  · have hne : jsTrim raw ≠ "" := by
      intro e
      rw [e] at hA
      simp at hA
    have hB4 : 4000 < (jsTrim raw).length := by
      rcases hB with hB | hB
      · exact absurd hB hne
      · exact hB
    cases hcc : st.currentConversation with
    | none => simp [sendRun, sendLocal, hne, hcc]
    | some conv => simp [sendRun, sendLocal, hne, hcc, hA, hB4]

/-- C4 witness: the theorem at the concrete input " ", which trims to
empty: nothing is appended, no network call is made, the store is
unchanged. -/
theorem claim_C4_witness :
    (sendRun exState " " SendResponse.netError 0 "g").finalState = exState ∧
    (sendRun exState " " SendResponse.netError 0 "g").stateAtSuspension = exState ∧
    (sendRun exState " " SendResponse.netError 0 "g").networkCalled = false ∧
    (sendLocal exState " " 0 "g").1 = exState := by
  have h := claim_C4 exState " " SendResponse.netError 0 "g"
    (Or.inl (by decide)) (Or.inl (by decide))
  exact ⟨h.1, h.2.1, h.2.2.1, h.2.2.2.1⟩

/-- C5.  Opening a thread that is present in the active collection
leaves that thread with `unreadCount = 0` — it is zeroed (and the store
persisted, the returned flag) when it was positive, and untouched (thus
still 0) when it was already 0. -/
theorem claim_C5 (st : ChatState) (id : String) (ty : ConvType) (c : Thread)
    (h : (activeItems st ty).find? (fun x => x.id == id) = some c) :
    ((activeItems (openConversation st id ty).1 ty).find? (fun x => x.id == id)).map
        Thread.unreadCount = some 0 ∧
    (0 < c.unreadCount → (openConversation st id ty).2 = true) := by
  have hmain : openConversation st id ty
      = (setItems { st with currentConversation := some c, currentConversationType := ty } ty
          (markAsRead (activeItems st ty) id).1,
         (markAsRead (activeItems st ty) id).2) := by
    simp only [openConversation, h, activeItems_select]
  by_cases hu : 0 < c.unreadCount
  · have hm : markAsRead (activeItems st ty) id
        = (zeroUnreadFirst (activeItems st ty) id, true) := by
      simp only [markAsRead, h, if_pos hu]
    rw [hmain, hm]
    constructor
    · rw [activeItems_setItems, find?_zeroUnreadFirst, h]
      rfl
    · intro _
      rfl
  · have hm : markAsRead (activeItems st ty) id = (activeItems st ty, false) := by
      simp only [markAsRead, h, if_neg hu]
    rw [hmain, hm]
    constructor
    · rw [activeItems_setItems, h]
      have h0 : c.unreadCount = 0 := Nat.eq_zero_of_not_pos hu
      simp [h0]
    · intro hpos
      exact absurd hpos hu

/-- C5 witness: opening thread "2" (3 unread) in the DM collection
leaves it with 0 unread and fires the zero-and-persist path. -/
theorem claim_C5_witness :
    (activeItems exStateU ConvType.dm).find? (fun x => x.id == "2") = some exThreadU ∧
    ((activeItems (openConversation exStateU "2" ConvType.dm).1 ConvType.dm).find?
        (fun x => x.id == "2")).map Thread.unreadCount = some 0 ∧
    (openConversation exStateU "2" ConvType.dm).2 = true := by
  have h : (activeItems exStateU ConvType.dm).find? (fun x => x.id == "2")
      = some exThreadU := by decide
  have hc := claim_C5 exStateU "2" ConvType.dm exThreadU h
  exact ⟨h, hc.1, hc.2 (by decide)⟩

/-- C6.  Every refresh operation — collection refresh (DM or groups)
and message-history refresh — leaves the store exactly as it was when
the request fails in transport (`none`) or returns a non-success HTTP
status (`ok = false`). -/
theorem claim_C6 (st : ChatState) (nowMs : Nat) (chatId : String)
    (rc : FetchResponse (List ApiConversation)) (rg : FetchResponse (List ApiChat))
    (rm : FetchResponse (List ApiMessage))
    (hc : rc.ok = false) (hg : rg.ok = false) (hm : rm.ok = false) :
    fetchMessagesResult st none nowMs = st ∧
    fetchMessagesResult st (some rc) nowMs = st ∧
    fetchChatsResult st none nowMs = st ∧
    fetchChatsResult st (some rg) nowMs = st ∧
    refreshMessages st chatId none = st ∧
    refreshMessages st chatId (some rm) = st := by
  refine ⟨rfl, ?_, rfl, ?_, rfl, ?_⟩ <;>
    simp [fetchMessagesResult, fetchChatsResult, refreshMessages, hc, hg, hm]

/-- C6 witness: the theorem at concrete failed responses. -/
theorem claim_C6_witness :
    fetchMessagesResult exState none 0 = exState ∧
    fetchMessagesResult exState (some ⟨false, []⟩) 0 = exState ∧
    fetchChatsResult exState none 0 = exState ∧
    fetchChatsResult exState (some ⟨false, []⟩) 0 = exState ∧
    refreshMessages exState "1" none = exState ∧
    refreshMessages exState "1" (some ⟨false, []⟩) = exState :=
  claim_C6 exState 0 "1" ⟨false, []⟩ ⟨false, []⟩ ⟨false, []⟩ rfl rfl rfl

/-- C7.  Switching the active tab refreshes exactly the newly active
collection — the DM switch runs the `_fetchMessages` effect, the Groups
switch the `_fetchChats` effect — and neither effect mutates the other
collection, whatever the response was. -/
theorem claim_C7 (st : ChatState) (d : Option (FetchResponse (List ApiConversation)))
    (g : Option (FetchResponse (List ApiChat))) (nowMs : Nat) :
    (switchTab ConvType.dm st d g nowMs).2 = fetchMessagesResult st d nowMs ∧
    (switchTab ConvType.groups st d g nowMs).2 = fetchChatsResult st g nowMs ∧
    (fetchMessagesResult st d nowMs).groups = st.groups ∧
    (fetchChatsResult st g nowMs).conversations = st.conversations := by
  refine ⟨rfl, rfl, ?_, ?_⟩
  · cases d with
    | none => rfl
    | some r =>
        dsimp [fetchMessagesResult]
        split
        · rfl
        · rfl
  · cases g with
    | none => rfl
    | some r =>
        dsimp [fetchChatsResult]
        split
        · rfl
        · rfl

/-- C8.  The claim asserts the stored timestamp always equals the
server's `sent_at` seconds × 1000, for history records and for send
confirmations alike.  The confirmation path computes
`(messageData.sent_at || Math.floor(Date.now() / 1000)) * 1000`, and JS
`||` treats 0 as falsy: at the concrete confirmation with
`sent_at = 0` and client clock 5000 ms the stored timestamp is 5000,
not 0 × 1000 = 0, so the claim as stated is false. -/
theorem claim_C8_counterexample :
    ((getMessages (sendRun exState "Hi" (SendResponse.success 42 0) 5000 "g1").finalState.messages "1").map
        Message.timestamp = [5000]) ∧
    ¬ ((getMessages (sendRun exState "Hi" (SendResponse.success 42 0) 5000 "g1").finalState.messages "1").map
        Message.timestamp = [0 * 1000]) := by
  decide

/-- C8 (amended).  Mapping a fetched history record always stores
`sent_at * 1000`; the send-confirmation path stores `sent_at * 1000`
whenever `sent_at` is non-zero (JS-truthy) — a zero or absent `sent_at`
falls back to the client clock's floor-seconds × 1000. -/
theorem claim_C8_amended (me : Option Nat) (m : ApiMessage) (text : String)
    (mid sat nowMs : Nat) (genId : String) (h : sat ≠ 0) :
    (fromApi me m).timestamp = m.sent_at * 1000 ∧
    (confirmedMessage text mid sat nowMs genId me).timestamp = sat * 1000 := by
  constructor
  · rfl
  · show (if sat ≠ 0 then sat else nowMs / 1000) * 1000 = sat * 1000
    rw [if_pos h]

/-- C8 witness: the amended theorem at a concrete record and
confirmation with `sent_at = 3`. -/
theorem claim_C8_witness :
    (fromApi (some 7) ⟨9, "yo", 3, 7⟩).timestamp = 3 * 1000 ∧
    (confirmedMessage "yo" 9 3 5000 "g" (some 7)).timestamp = 3 * 1000 :=
  claim_C8_amended (some 7) ⟨9, "yo", 3, 7⟩ "yo" 9 3 5000 "g" (by decide)

/-- C9.  `getMessages` is total: it returns the stored list when the key
is present and `[]` when absent; and after `addMessage` the thread's
list — created on demand if absent — is non-empty with the new message
as its last element. -/
theorem claim_C9 (ms : MsgMap) (id : String) (m : Message) :
    (List.lookup id ms = none → getMessages ms id = []) ∧
    (∀ l, List.lookup id ms = some l → getMessages ms id = l) ∧
    getMessages (addMessage ms id m) id = getMessages ms id ++ [m] ∧
    (getMessages (addMessage ms id m) id).getLast? = some m ∧
    getMessages (addMessage ms id m) id ≠ [] := by
  refine ⟨?_, ?_, getMessages_addMessage ms id m, ?_, ?_⟩
  · intro h
    simp [getMessages, h]
  · intro l h
    simp [getMessages, h]
  · rw [getMessages_addMessage]
    simp
  · rw [getMessages_addMessage]
    simp

/-- C9 witness: the theorem at the empty map. -/
theorem claim_C9_witness :
    getMessages [] "1" = [] ∧
    getMessages (addMessage [] "1" exPendingMsg) "1" = getMessages [] "1" ++ [exPendingMsg] ∧
    (getMessages (addMessage [] "1" exPendingMsg) "1").getLast? = some exPendingMsg ∧
    getMessages (addMessage [] "1" exPendingMsg) "1" ≠ [] := by
  have h := claim_C9 [] "1" exPendingMsg
  exact ⟨h.1 rfl, h.2.2.1, h.2.2.2.1, h.2.2.2.2⟩

/-- C10.  `addConversation` places the new conversation at index 0 and
unconditionally resets its message list to `[]` (even when a non-empty
list already existed under that id); `addGroup` behaves the same for
groups. -/
theorem claim_C10 (st : ChatState) (c g : Thread) :
    (addConversation st c).conversations.head? = some c ∧
    getMessages (addConversation st c).messages c.id = [] ∧
    (addGroup st g).groups.head? = some g ∧
    getMessages (addGroup st g).messages g.id = [] :=
  ⟨rfl, getMessages_setMessages st.messages c.id [],
   rfl, getMessages_setMessages st.messages g.id []⟩

end Messaging
